import Mathlib

/-!
Shallow embedding of `release_the_hounds.py` (ReleaseTheHounds), the
orchestration pipeline that discovers BloodHound JSON files, loads them and
hands them to an external ingestion API client.

Modelling conventions:
* Parsed JSON values are the inductive `Json`; Python `dict`/`list`/`str`
  membership (`key in json_data`) is `py_contains`, which raises `TypeError`
  on scalars exactly as CPython does.
* A file on disk is a `FileContent`: whether its bytes start with a UTF-8
  byte-order marker, and the result of JSON-parsing its body once the marker
  is stripped (`none` when the body is not valid JSON).  The platform default
  encoding is taken to be UTF-8, as on the tool's target platforms; under it a
  leading BOM makes `json.load` raise, which is the only default-encoding
  failure mode distinguished by the program.
* The filesystem entity named by `args.location` is an `Entry`; `os.walk`
  ignores `scandir` errors (its documented default), so walking anything but
  an existing directory yields nothing and never raises.
* Printing is modelled only for the diagnostic/error lines the spec talks
  about; informational banner lines are elided.  A bare Python `exit()`
  raises `SystemExit(None)`, which terminates the process with status 0, so
  it is modelled as `Outcome.exited 0`.
* The external collaborators (`api.py`'s `Client`, `constants.py`'s
  `api_info`) are not in the repository; the probe result and the default
  endpoint/token constants are inputs in `World`, and a call to
  `chunk_and_submit_data` is recorded as an element of `submitted`.
-/

/-- A parsed JSON value (the result of `json.load`). -/
inductive Json where
  | null
  | boolean (b : Bool)
  | num (n : Int)
  | str (s : String)
  | arr (elems : List Json)
  | obj (members : List (String × Json))

/-- The one Python exception class the membership test can raise. -/
inductive PyErr where
  | typeError
deriving DecidableEq

/-- Split a character list at every occurrence of `sep`, keeping empty
pieces — the semantics of Python `str.split(sep)` with an explicit
separator.  Splitting the empty string yields one empty piece. -/
def splitChars (sep : Char) : List Char → List (List Char)
  | [] => [[]]
  | c :: rest =>
    let r := splitChars sep rest
    if c == sep then [] :: r
    else
      match r with
      | [] => [[c]]
      | h :: t => (c :: h) :: t

/-- Python `s.split(sep)` for a one-character separator.  (Implemented over
the character list rather than with `String.splitOn` so that it reduces in
the kernel; the semantics agree.) -/
def py_split (sep : Char) (s : String) : List String :=
  (splitChars sep s.data).map String.mk

/-- Python `s.endswith(suf)` — a case-sensitive suffix test. -/
def py_endswith (s suf : String) : Bool :=
  suf.data.isSuffixOf s.data

/-- Does `needle` occur as a contiguous sublist of `hay`? -/
def isSubList : List Char → List Char → Bool
  | needle, [] => needle.isEmpty
  | needle, c :: t => needle.isPrefixOf (c :: t) || isSubList needle t

/-- Substring test, Python `needle in hay` for strings. -/
def containsSub (hay needle : String) : Bool :=
  isSubList needle.data hay.data

/-- Python `x == key` where `key` is a `str`: true only for the equal string. -/
def pyStrEq (x : Json) (key : String) : Bool :=
  match x with
  | .str s => s == key
  | _ => false

/-- Python `key in json_data` for a string `key`: key lookup on dicts,
element equality on lists, substring test on strings, `TypeError` on
scalars (`None`, booleans, numbers are not iterable / not containers). -/
def py_contains (j : Json) (key : String) : Except PyErr Bool :=
  match j with
  | .obj kvs => .ok (kvs.any (fun kv => kv.1 == key))
  | .arr xs => .ok (xs.any (fun x => pyStrEq x key))
  | .str s => .ok (containsSub s key)
  | _ => .error .typeError

/-- The informational line `validate_json` always prints first. -/
def checkMsg : String := "[*] Checking if the data is valid"

/-- The diagnostic lines `validate_json` prints when the check fails. -/
def invalidMsgs : List String :=
  [ "[-] This data does not look like valid BloodHound data! Troubleshoot ideas:"
  , "    -> Did you use the most recent collector?"
  , "    -> Are you using \"data\" as the key for objects (old collectors used \"computers\", \"users\", etc.)"
  , "    -> Check out https://support.bloodhoundenterprise.io/hc/en-us/articles/17303881735963-BloodHound-JSON-Formats" ]

/-- `validate_json(json_data)`: evaluates
`all(key in json_data for key in ("data", "meta"))`; on a scalar the first
membership test raises `TypeError`, which propagates.  Returns the boolean
together with the lines printed (the printed lines on the raising path are
dropped with the error, as only the exception is observable then). -/
def validate_json (j : Json) : Except PyErr (Bool × List String) :=
  match py_contains j "data" with
  | .error e => .error e
  | .ok false => .ok (false, checkMsg :: invalidMsgs)
  | .ok true =>
    match py_contains j "meta" with
    | .error e => .error e
    | .ok false => .ok (false, checkMsg :: invalidMsgs)
    | .ok true => .ok (true, [checkMsg])

/-- One file's on-disk content, as far as the loader can distinguish it:
whether the bytes start with a UTF-8 byte-order marker, and the JSON value
parsed from the body with the marker stripped (`none` when the body is not
valid JSON under UTF-8). -/
structure FileContent where
  hasBOM : Bool
  parsed : Option Json

/-- First attempt of `load_file`: `open(filename, 'r')` with the platform
default encoding, then `json.load`.  A leading BOM survives decoding as
U+FEFF and makes `json.load` raise, so the attempt fails; otherwise it
succeeds exactly when the body is valid JSON. -/
def decode_default (c : FileContent) : Option Json :=
  if c.hasBOM then none else c.parsed

/-- Second attempt of `load_file`: `open(filename, 'r', encoding='utf-8-sig')`,
which strips a leading BOM if present, then `json.load`. -/
def decode_utf8_sig (c : FileContent) : Option Json :=
  c.parsed

/-- `load_file(filename)`: try the default-encoding attempt; on any
exception retry with `utf-8-sig`.  `none` means the second attempt also
raised and the exception propagates to the caller. -/
def load_file (c : FileContent) : Option Json :=
  match decode_default c with
  | some j => some j
  | none => decode_utf8_sig c

/-- A readable, well-formed zip archive: its member-name list in the
archive's internal directory order. -/
structure ZipFile where
  members : List String

mutual
/-- A directory tree: the files directly in a directory and its
subdirectories, in listing order.  `DirList` is the (name, subtree) list,
kept as a separate inductive so structural recursion stays simple. -/
inductive FSTree where
  | node (files : List String) (subdirs : DirList)
/-- A list of named subdirectories. -/
inductive DirList where
  | nil
  | cons (name : String) (tree : FSTree) (rest : DirList)
end

/-- `os.path.join(root, name)` for a relative `name`. -/
def pjoin (root name : String) : String :=
  root ++ "/" ++ name

mutual
/-- `os.walk(top)` on an existing directory, top-down (the default): yield
`(root, files)` for the root, then recurse into each subdirectory in listing
order.  (The `dirs` component of the triple is not used by the program.) -/
def walkTree (root : String) : FSTree → List (String × List String)
  | .node files subdirs => (root, files) :: walkDirs root subdirs
/-- Walk each subdirectory in order. -/
def walkDirs (root : String) : DirList → List (String × List String)
  | .nil => []
  | .cons name tree rest => walkTree (pjoin root name) tree ++ walkDirs root rest
end

/-- What the path `args.location` actually names on disk. -/
inductive Entry where
  | zipArchive (z : ZipFile)
  | directory (t : FSTree)
  | invalidFile
  | missing

/-- `os.walk(loc)`: yields the tree walk for an existing directory; for a
missing path, a regular file, or anything else, `scandir` raises and
`os.walk`'s default `onerror=None` IGNORES the error, so the generator
yields nothing and never raises. -/
def os_walk (loc : String) : Entry → List (String × List String)
  | .directory t => walkTree loc t
  | _ => []

/-- The message of the dead `except FileNotFoundError` handler in
`list_files_in_directory`.  `os.walk` never raises `FileNotFoundError`
(see `os_walk`), so this line is unreachable and never printed. -/
def dirNotFoundMsg (d : String) : String :=
  "Error: Directory '" ++ d ++ "' not found."

/-- `list_files_in_directory(directory)`: walk the directory and collect
`os.path.join(root, file)` for every walked file whose name ends in
`.json`.  Returns the collected paths and the printed diagnostic lines;
the `FileNotFoundError` handler is unreachable, so no diagnostic is ever
printed. -/
def list_files_in_directory (loc : String) (e : Entry) : List String × List String :=
  ((os_walk loc e).flatMap
    (fun p => (p.2.filter (fun f => py_endswith f ".json")).map (pjoin p.1)), [])

/-- The diagnostic `extract_zip` prints when opening/extracting fails. -/
def zipErrMsg (filename : String) : String :=
  "Error extracting JSON data from zip: " ++ filename ++ " may not be a valid zip file."

/-- `extract_zip(filename)`: open the path as a zip archive, extract all
members into the current working directory, and return the member-name
list.  The bare `except:` catches every failure (missing file, directory,
not a zip), prints a diagnostic, and the initial empty list is returned.
Result: (returned file list, members written to the working directory,
printed diagnostic lines). -/
def extract_zip (filename : String) (e : Entry) :
    List String × List String × List String :=
  match e with
  | .zipArchive z => (z.members, z.members, [])
  | _ => ([], [], [zipErrMsg filename])

/-- Outcome of `main`'s url handling at lines 115-121. -/
inductive UrlResolution where
  | resolved (scheme host port : String)
  | configExit
  | indexCrash
deriving DecidableEq

/-- The corrective message printed before `exit()` on a malformed URL. -/
def urlErrMsg : String :=
  "[*] URL parameter must include protocol scheme and port. Example: https://bloodhound.absalom.org:443"

/-- `main`'s URL-override handling: if `len(url.split(':')) != 3`, print the
corrective message and `exit()`; otherwise scheme is segment 0, port is
segment 2, and the host is `url.split(':')[1].split('/')[2]` — an
`IndexError` (an uncaught crash) when the second segment splits on `/`
into fewer than three pieces. -/
def resolve_url (u : String) : UrlResolution :=
  let parts := py_split ':' u
  if parts.length = 3 then
    match (py_split '/' (parts.getD 1 "")).get? 2 with
    | some host => .resolved (parts.getD 0 "") host (parts.getD 2 "")
    | none => .indexCrash
  else .configExit

/-- `chunk_object_count = args.chunkobjects if args.chunkobjects else 250`
and likewise for `chunksinjob`/50: Python truthiness on an `int` keeps any
nonzero value (negative included) and replaces 0 by the default. -/
def chunk_config (chunkobjects chunksinjob : Int) : Int × Int :=
  ((if chunkobjects ≠ 0 then chunkobjects else 250),
   (if chunksinjob ≠ 0 then chunksinjob else 50))

/-- `BHCE_TOKEN_ID = args.tokenid if args.tokenid else api_info[...]` shape:
an override wins when it is truthy (present and non-empty). -/
def resolve_token (override : Option String) (dflt : String) : String :=
  match override with
  | some s => if s ≠ "" then s else dflt
  | none => dflt

/-- The diagnostic printed before `exit()` when `client.get_version()` raises. -/
def authErrMsg : String :=
  "[-] Failed to authenticate to the target API. Exiting ..."

/-- The command-line arguments after `argparse` (so `chunkobjects` and
`chunksinjob` already carry the argparse defaults 250/50 when the flags are
absent). -/
structure Args where
  location : String
  url : Option String := none
  tokenid : Option String := none
  tokenkey : Option String := none
  chunkobjects : Int := 250
  chunksinjob : Int := 50

/-- Everything outside the program that `main` observes: the `api_info`
defaults from `constants.py` (not in the repository), what `args.location`
names on disk, each file's content, and whether `client.get_version()`
succeeds. -/
structure World where
  apiScheme : String
  apiDomain : String
  apiPort : String
  apiTokenId : String
  apiTokenKey : String
  entity : Entry
  fileContent : String → FileContent
  probeOk : Bool

/-- How the process ends: `exit(code)` (a bare `exit()` is status 0), an
uncaught exception, or falling off the end of `main`. -/
inductive Outcome where
  | exited (code : Nat)
  | crashed
  | finished
deriving DecidableEq

/-- Observable result of one run of `main`. -/
structure RunResult where
  outcome : Outcome
  endpoint : Option (String × String × String)
  chunkCfg : Option (Int × Int)
  probed : Bool
  discovered : List String
  loaded : List String
  submitted : List (Json × Int × Int)
  errOutput : List String

/-- The per-file loop at lines 152-155: for each file in order, `load_file`
it and call `client.chunk_and_submit_data` with the run's chunk parameters.
A load failure raises out of the loop: nothing after the failing file is
loaded or submitted.  Returns (files loaded, submissions made, outcome). -/
def processFiles (w : World) (cfg : Int × Int) :
    List String → List String × List (Json × Int × Int) × Outcome
  | [] => ([], [], .finished)
  | f :: rest =>
    match load_file (w.fileContent f) with
    | some j =>
      let r := processFiles w cfg rest
      (f :: r.1, (j, cfg.1, cfg.2) :: r.2.1, r.2.2)
    | none => ([], [], .crashed)

/-- Line 151: `files = extract_zip(args.location) if
args.location.endswith('.zip') else list_files_in_directory(args.location)`. -/
def discovered_files (a : Args) (w : World) : List String :=
  if py_endswith a.location ".zip" then (extract_zip a.location w.entity).1
  else (list_files_in_directory a.location w.entity).1

/-- The diagnostics printed by the discovery step of line 151. -/
def discovery_diags (a : Args) (w : World) : List String :=
  if py_endswith a.location ".zip" then (extract_zip a.location w.entity).2.2
  else (list_files_in_directory a.location w.entity).2

/-- `main()`: resolve tokens and endpoint (a malformed URL override prints
the corrective message and exits with status 0; a URL whose second `:`
segment lacks the `//` pieces crashes with an uncaught `IndexError`),
resolve the chunk configuration, probe the API with `get_version` (failure
prints a diagnostic and exits with status 0), then discover files and run
the per-file load/submit loop.  `validate_json` is never called here.
Line 115 `if args.url:` is a Python truthiness test, so a supplied but
EMPTY override string is falsy: it is silently ignored and the defaults
branch is taken, exactly like an absent override.  (Named `main_py`
because a bare `main` clashes with Lean's entry-point convention.) -/
def main_py (a : Args) (w : World) : RunResult :=
  let ep : Except (Outcome × List String) (String × String × String) :=
    match a.url with
    | some u =>
      if u = "" then .ok (w.apiScheme, w.apiDomain, w.apiPort)
      else
        match resolve_url u with
        | .resolved s h p => .ok (s, h, p)
        | .configExit => .error (.exited 0, [urlErrMsg])
        | .indexCrash => .error (.crashed, [])
    | none => .ok (w.apiScheme, w.apiDomain, w.apiPort)
  match ep with
  | .error (oc, msgs) =>
    { outcome := oc, endpoint := none, chunkCfg := none, probed := false,
      discovered := [], loaded := [], submitted := [], errOutput := msgs }
  | .ok endpoint =>
    let cfg := chunk_config a.chunkobjects a.chunksinjob
    if w.probeOk then
      let files := discovered_files a w
      let r := processFiles w cfg files
      { outcome := r.2.2, endpoint := some endpoint, chunkCfg := some cfg,
        probed := true, discovered := files, loaded := r.1,
        submitted := r.2.1, errOutput := discovery_diags a w }
    else
      { outcome := .exited 0, endpoint := some endpoint, chunkCfg := some cfg,
        probed := true, discovered := [], loaded := [], submitted := [],
        errOutput := [authErrMsg] }

/-!  Spec-side definitions, written from the specification's words, to be
compared with the code-side definitions above. -/

/-- Modelled from the spec: "the document exposes both top-level members
`data` and `meta`" — a JSON object with both keys present; a non-object
document has no top-level members. -/
def spec_exposes_data_meta (j : Json) : Bool :=
  match j with
  | .obj kvs => kvs.any (fun kv => kv.1 == "data") && kvs.any (fun kv => kv.1 == "meta")
  | _ => false

mutual
/-- Modelled from the spec: "the paths of files under the directory
(recursively) whose names end in the case-sensitive suffix `.json`", in
traversal order. -/
def spec_jsonFilePaths (root : String) : FSTree → List String
  | .node files subdirs =>
    (files.filter (fun f => py_endswith f ".json")).map (pjoin root)
      ++ spec_jsonFilePathsDirs root subdirs
/-- The same collection over a subdirectory list. -/
def spec_jsonFilePathsDirs (root : String) : DirList → List String
  | .nil => []
  | .cons name tree rest =>
    spec_jsonFilePaths (pjoin root name) tree ++ spec_jsonFilePathsDirs root rest
end

/-!  Concrete worlds used by counterexamples and witnesses. -/

/-- A world with a missing location, no files, and a succeeding probe. -/
def sampleWorld : World :=
  { apiScheme := "https", apiDomain := "h", apiPort := "443",
    apiTokenId := "tid", apiTokenKey := "tkey",
    entity := .missing, fileContent := fun _ => ⟨false, none⟩, probeOk := true }

/-- A well-formed BloodHound-shaped document. -/
def sampleDoc : Json :=
  .obj [("data", .arr []), ("meta", .obj [])]

/-- A world whose location is a directory holding the single file `a.json`,
whose content is `sampleDoc`. -/
def jsonDirWorld : World :=
  { sampleWorld with
    entity := .directory (.node ["a.json"] .nil),
    fileContent := fun _ => ⟨false, some sampleDoc⟩ }

/-- A world whose single file holds `{}` — a document with neither `data`
nor `meta`. -/
def bareObjWorld : World :=
  { jsonDirWorld with fileContent := fun _ => ⟨false, some (.obj [])⟩ }

/-- A world whose probe (`client.get_version()`) fails. -/
def authFailWorld : World :=
  { jsonDirWorld with probeOk := false }

/-!  Helper lemmas about the embedded program. -/

/-- The two-attempt loader succeeds exactly on the parseable bodies: the
fallback makes the BOM irrelevant to the final result. -/
theorem load_file_eq_parsed (c : FileContent) : load_file c = c.parsed := by
  unfold load_file decode_default decode_utf8_sig
  cases hb : c.hasBOM <;> cases hp : c.parsed <;> simp [hb, hp]

/-- When every file in the list loads, the loop loads all of them, submits
each document with the run's chunk parameters, in order, and finishes. -/
theorem processFiles_all_ok (w : World) (cfg : Int × Int) (d : String → Json) :
    ∀ files : List String, (∀ f ∈ files, (w.fileContent f).parsed = some (d f)) →
      processFiles w cfg files
        = (files, files.map (fun f => (d f, cfg.1, cfg.2)), Outcome.finished) := by
  intro files
  induction files with
  | nil => intro _; rfl
  | cons f rest ih =>
    intro h
    have hf : (w.fileContent f).parsed = some (d f) := h f (by simp)
    have hrest := ih (fun g hg => h g (by simp [hg]))
    simp [processFiles, load_file_eq_parsed, hf, hrest]

/-- The loop always submits exactly one document per loaded file. -/
theorem processFiles_sub_len (w : World) (cfg : Int × Int) :
    ∀ files : List String,
      (processFiles w cfg files).2.1.length = (processFiles w cfg files).1.length := by
  intro files
  induction files with
  | nil => rfl
  | cons f rest ih =>
    cases hl : load_file (w.fileContent f) with
    | none => simp [processFiles, hl]
    | some j => simp [processFiles, hl, ih]

/-- The files loaded by the loop are an initial segment of the file list. -/
theorem processFiles_loaded_pre (w : World) (cfg : Int × Int) :
    ∀ files : List String, ∃ r, (processFiles w cfg files).1 ++ r = files := by
  intro files
  induction files with
  | nil => exact ⟨[], rfl⟩
  | cons f rest ih =>
    cases hl : load_file (w.fileContent f) with
    | none => exact ⟨f :: rest, by simp [processFiles, hl]⟩
    | some j =>
      obtain ⟨r, hr⟩ := ih
      exact ⟨r, by simp [processFiles, hl, hr]⟩

/-- In order, the documents submitted are exactly the parse results of the
loaded files. -/
theorem processFiles_sub_map (w : World) (cfg : Int × Int) :
    ∀ files : List String,
      (processFiles w cfg files).2.1.map (fun s => some s.1)
        = (processFiles w cfg files).1.map (fun f => (w.fileContent f).parsed) := by
  intro files
  induction files with
  | nil => rfl
  | cons f rest ih =>
    cases hl : load_file (w.fileContent f) with
    | none => simp [processFiles, hl]
    | some j =>
      have hj : (w.fileContent f).parsed = some j := by
        rw [← load_file_eq_parsed]; exact hl
      simp [processFiles, hl, ih, hj]

/-- The loop never calls `exit`: it either finishes or crashes. -/
theorem processFiles_not_exited (w : World) (cfg : Int × Int) :
    ∀ (files : List String) (code : Nat),
      (processFiles w cfg files).2.2 ≠ Outcome.exited code := by
  intro files
  induction files with
  | nil => intro code h; exact Outcome.noConfusion h
  | cons f rest ih =>
    intro code
    cases hl : load_file (w.fileContent f) with
    | none => simp [processFiles, hl]
    | some j => simpa [processFiles, hl] using ih code

/-- A load failure crashes the run: nothing at or after the failing file is
loaded or submitted, whatever follows it. -/
theorem processFiles_stops (w : World) (cfg : Int × Int) (f : String)
    (post : List String) (hf : (w.fileContent f).parsed = none) :
    ∀ pre : List String,
      (processFiles w cfg (pre ++ f :: post)).2.2 = Outcome.crashed ∧
      (∃ r, (processFiles w cfg (pre ++ f :: post)).1 ++ r = pre) := by
  intro pre
  induction pre with
  | nil =>
    have hl : load_file (w.fileContent f) = none := by
      rw [load_file_eq_parsed]; exact hf
    exact ⟨by simp [processFiles, hl], ⟨[], by simp [processFiles, hl]⟩⟩
  | cons g pre ih =>
    cases hl : load_file (w.fileContent g) with
    | none => exact ⟨by simp [processFiles, hl], ⟨g :: pre, by simp [processFiles, hl]⟩⟩
    | some j =>
      obtain ⟨hc, r, hr⟩ := ih
      exact ⟨by simp [processFiles, hl, hc], ⟨r, by simp [processFiles, hl, hr]⟩⟩

mutual
/-- The directory scan collects exactly the `.json`-named files that the
spec's recursive description collects, in the same order. -/
theorem jsonFlat_walkTree (root : String) :
    ∀ t : FSTree,
      (walkTree root t).flatMap
          (fun p => (p.2.filter (fun f => py_endswith f ".json")).map (pjoin p.1))
        = spec_jsonFilePaths root t
  | .node files subdirs => by
    simp [walkTree, spec_jsonFilePaths, jsonFlat_walkDirs root subdirs]
/-- The same statement over a subdirectory list. -/
theorem jsonFlat_walkDirs (root : String) :
    ∀ l : DirList,
      (walkDirs root l).flatMap
          (fun p => (p.2.filter (fun f => py_endswith f ".json")).map (pjoin p.1))
        = spec_jsonFilePathsDirs root l
  | .nil => by simp [walkDirs, spec_jsonFilePathsDirs]
  | .cons name tree rest => by
    simp [walkDirs, spec_jsonFilePathsDirs, jsonFlat_walkTree (pjoin root name) tree,
      jsonFlat_walkDirs root rest]
end

/-- `main_py` with no URL override and a succeeding probe: the endpoint
comes from the defaults, and the run is discovery plus the per-file loop. -/
theorem main_py_none_ok (a : Args) (w : World) (hu : a.url = none) (hp : w.probeOk = true) :
    main_py a w =
      { outcome := (processFiles w (chunk_config a.chunkobjects a.chunksinjob) (discovered_files a w)).2.2,
        endpoint := some (w.apiScheme, w.apiDomain, w.apiPort),
        chunkCfg := some (chunk_config a.chunkobjects a.chunksinjob),
        probed := true,
        discovered := discovered_files a w,
        loaded := (processFiles w (chunk_config a.chunkobjects a.chunksinjob) (discovered_files a w)).1,
        submitted := (processFiles w (chunk_config a.chunkobjects a.chunksinjob) (discovered_files a w)).2.1,
        errOutput := discovery_diags a w } := by
  simp [main_py, hu, hp]

/-- `main_py` with no URL override and a failing probe: the run exits with
status 0 after the probe, before any discovery, load or submission. -/
theorem main_py_none_fail (a : Args) (w : World) (hu : a.url = none) (hp : w.probeOk = false) :
    main_py a w =
      { outcome := .exited 0,
        endpoint := some (w.apiScheme, w.apiDomain, w.apiPort),
        chunkCfg := some (chunk_config a.chunkobjects a.chunksinjob),
        probed := true, discovered := [], loaded := [], submitted := [],
        errOutput := [authErrMsg] } := by
  simp [main_py, hu, hp]

/-- A supplied but empty URL override is falsy at line 115: the run takes
the default endpoint and proceeds to the probe — no message, no exit. -/
theorem main_py_empty_url (a : Args) (w : World) (hu : a.url = some "") :
    (main_py a w).endpoint = some (w.apiScheme, w.apiDomain, w.apiPort) ∧
    (main_py a w).probed = true := by
  cases hp : w.probeOk <;> simp [main_py, hu, hp]

/-- A truthy (non-empty) URL override that does not split on `:` into three
segments: print the corrective message and `exit()` before anything else
happens. -/
theorem main_py_configExit (a : Args) (w : World) (u : String) (hu : a.url = some u)
    (hne : u ≠ "") (hr : resolve_url u = .configExit) :
    main_py a w =
      { outcome := .exited 0, endpoint := none, chunkCfg := none, probed := false,
        discovered := [], loaded := [], submitted := [], errOutput := [urlErrMsg] } := by
  simp [main_py, hu, hne, hr]

/-- A truthy URL override whose second `:` segment lacks the `//` pieces:
the host lookup raises `IndexError` and the run crashes before anything
else. -/
theorem main_py_indexCrash (a : Args) (w : World) (u : String) (hu : a.url = some u)
    (hne : u ≠ "") (hr : resolve_url u = .indexCrash) :
    main_py a w =
      { outcome := .crashed, endpoint := none, chunkCfg := none, probed := false,
        discovered := [], loaded := [], submitted := [], errOutput := [] } := by
  simp [main_py, hu, hne, hr]

/-- A truthy, well-shaped URL override supplies the endpoint `main_py`
uses. -/
theorem main_py_resolved_endpoint (a : Args) (w : World) (u s h p : String)
    (hu : a.url = some u) (hne : u ≠ "") (hr : resolve_url u = .resolved s h p) :
    (main_py a w).endpoint = some (s, h, p) := by
  cases hp2 : w.probeOk <;> simp [main_py, hu, hne, hr, hp2]

/-- Any run that submits anything passed a succeeding probe first. -/
theorem main_py_sub_ne_probe (a : Args) (w : World) :
    (main_py a w).submitted ≠ [] → w.probeOk = true ∧ (main_py a w).probed = true := by
  intro hne
  cases hu : a.url with
  | none =>
    cases hp : w.probeOk with
    | false => exact absurd (by simp [main_py, hu, hp]) hne
    | true => exact ⟨rfl, by simp [main_py, hu, hp]⟩
  | some u =>
    by_cases he : u = ""
    · cases hp : w.probeOk with
      | false => exact absurd (by simp [main_py, hu, he, hp]) hne
      | true => exact ⟨rfl, by simp [main_py, hu, he, hp]⟩
    · cases hr : resolve_url u with
      | configExit => exact absurd (by simp [main_py, hu, he, hr]) hne
      | indexCrash => exact absurd (by simp [main_py, hu, he, hr]) hne
      | resolved s h p =>
        cases hp : w.probeOk with
        | false => exact absurd (by simp [main_py, hu, he, hr, hp]) hne
        | true => exact ⟨rfl, by simp [main_py, hu, he, hr, hp]⟩

/-- A world whose location's directory contains the files `g`, `b` and `h`,
where `b`'s body is not valid JSON and the rest are. -/
def mixedWorld : World :=
  { sampleWorld with
    fileContent := fun n => if n = "b" then ⟨false, none⟩ else ⟨false, some sampleDoc⟩ }

/-!  Claim theorems. -/

/-- C1 counterexample: the URL override `"a:b:c"` splits on `:` into
exactly three segments, yet resolution does not succeed — the host lookup
`url.split(':')[1].split('/')[2]` raises `IndexError` because the second
segment `"b"` has no `/`, and the run crashes (before any network call)
instead of resolving. -/
theorem C1_counterexample :
    (py_split ':' "a:b:c").length = 3 ∧
    resolve_url "a:b:c" = UrlResolution.indexCrash ∧
    (main_py { location := "d", url := some "a:b:c" } sampleWorld).outcome = Outcome.crashed ∧
    (main_py { location := "d", url := some "a:b:c" } sampleWorld).probed = false :=
  ⟨rfl, rfl, rfl, rfl⟩

/-- C1 (amended): a supplied but EMPTY override string is falsy at line
115's truthiness test, so it is silently ignored — the run takes the
default endpoint and proceeds to the probe, with no configuration error.
For a supplied non-empty override: if splitting on `:` yields a number of
segments other than three, resolution fails with the fatal configuration
error (corrective message, `exit()`) before any network call; if it yields
exactly three segments AND the second segment splits on `/` into at least
three pieces, resolution succeeds with scheme = first segment, host = the
third `/`-piece of the second segment, port = third segment; if it yields
exactly three segments but the second segment lacks those pieces, the run
crashes with an uncaught `IndexError` before any network call. -/
theorem C1_theorem (a : Args) (w : World) (u : String) (hu : a.url = some u) :
    (u = "" → (main_py a w).endpoint = some (w.apiScheme, w.apiDomain, w.apiPort) ∧
       (main_py a w).probed = true) ∧
    (u ≠ "" → (py_split ':' u).length ≠ 3 →
       (main_py a w).outcome = Outcome.exited 0 ∧ (main_py a w).probed = false ∧
       (main_py a w).submitted = [] ∧ (main_py a w).errOutput = [urlErrMsg]) ∧
    (∀ host, u ≠ "" → (py_split ':' u).length = 3 →
       (py_split '/' ((py_split ':' u).getD 1 "")).get? 2 = some host →
       (main_py a w).endpoint =
         some ((py_split ':' u).getD 0 "", host, (py_split ':' u).getD 2 "")) ∧
    (u ≠ "" → (py_split ':' u).length = 3 →
       (py_split '/' ((py_split ':' u).getD 1 "")).get? 2 = none →
       (main_py a w).outcome = Outcome.crashed ∧ (main_py a w).probed = false ∧
       (main_py a w).submitted = []) := by
  refine ⟨?_, ?_, ?_, ?_⟩
  · intro he
    subst he
    exact main_py_empty_url a w hu
  · intro hne h3
    have hr : resolve_url u = .configExit := by
      simp only [resolve_url]
      rw [if_neg h3]
    rw [main_py_configExit a w u hu hne hr]
    exact ⟨rfl, rfl, rfl, rfl⟩
  · intro host hne h3 hg
    have hr : resolve_url u
        = .resolved ((py_split ':' u).getD 0 "") host ((py_split ':' u).getD 2 "") := by
      simp only [resolve_url]
      rw [if_pos h3, hg]
    exact main_py_resolved_endpoint a w u _ _ _ hu hne hr
  · intro hne h3 hg
    have hr : resolve_url u = .indexCrash := by
      simp only [resolve_url]
      rw [if_pos h3, hg]
    rw [main_py_indexCrash a w u hu hne hr]
    exact ⟨rfl, rfl, rfl⟩

/-- C1 witness: the four branches of `C1_theorem` at concrete URL
overrides `""`, `"noport"`, `"https://h:443"` and `"a:b:c"`. -/
theorem C1_witness :
    (main_py { location := "d", url := some "" } sampleWorld).endpoint
      = some ("https", "h", "443") ∧
    (main_py { location := "d", url := some "" } sampleWorld).probed = true ∧
    (main_py { location := "d", url := some "noport" } sampleWorld).outcome = Outcome.exited 0 ∧
    (main_py { location := "d", url := some "https://h:443" } sampleWorld).endpoint
      = some ("https", "h", "443") ∧
    (main_py { location := "d", url := some "a:b:c" } sampleWorld).outcome = Outcome.crashed := by
  refine ⟨?_, ?_, ?_, ?_, ?_⟩
  · exact ((C1_theorem _ sampleWorld "" rfl).1 rfl).1
  · exact ((C1_theorem _ sampleWorld "" rfl).1 rfl).2
  · exact ((C1_theorem _ sampleWorld "noport" rfl).2.1 (by decide) (by decide)).1
  · exact (C1_theorem _ sampleWorld "https://h:443" rfl).2.2.1 "h" (by decide) (by rfl) (by rfl)
  · exact ((C1_theorem _ sampleWorld "a:b:c" rfl).2.2.2 (by decide) (by rfl) (by rfl)).1

/-- C2: a file with no byte-order marker whose body parses succeeds on the
first (default-encoding) attempt; a file with a marker fails the first
attempt and succeeds only via the `utf-8-sig` fallback; a file failing both
attempts makes `load_file` raise, and in the processing loop the run
crashes there — no file after the failing one is loaded, and submissions
match the loaded files one for one. -/
theorem C2_theorem :
    (∀ (c : FileContent) (j : Json), c.hasBOM = false → c.parsed = some j →
       decode_default c = some j ∧ load_file c = some j) ∧
    (∀ (c : FileContent) (j : Json), c.hasBOM = true → c.parsed = some j →
       decode_default c = none ∧ decode_utf8_sig c = some j ∧ load_file c = some j) ∧
    (∀ c : FileContent, c.parsed = none →
       decode_default c = none ∧ decode_utf8_sig c = none ∧ load_file c = none) ∧
    (∀ (w : World) (cfg : Int × Int) (f : String) (post : List String),
       (w.fileContent f).parsed = none → ∀ pre : List String,
       (processFiles w cfg (pre ++ f :: post)).2.2 = Outcome.crashed ∧
       (∃ r, (processFiles w cfg (pre ++ f :: post)).1 ++ r = pre) ∧
       (processFiles w cfg (pre ++ f :: post)).2.1.length
         = (processFiles w cfg (pre ++ f :: post)).1.length) := by
  refine ⟨?_, ?_, ?_, ?_⟩
  · intro c j hb hp
    refine ⟨by simp [decode_default, hb, hp], ?_⟩
    rw [load_file_eq_parsed]; exact hp
  · intro c j hb hp
    refine ⟨by simp [decode_default, hb], by simp [decode_utf8_sig, hp], ?_⟩
    rw [load_file_eq_parsed]; exact hp
  · intro c hp
    refine ⟨by simp [decode_default, hp], by simp [decode_utf8_sig, hp], ?_⟩
    rw [load_file_eq_parsed]; exact hp
  · intro w cfg f post hf pre
    obtain ⟨h1, h2⟩ := processFiles_stops w cfg f post hf pre
    exact ⟨h1, h2, processFiles_sub_len w cfg _⟩

/-- C2 witness: the loader branches at concrete file contents, and the
whole-run abort when the middle file of `["g", "b", "h"]` fails to load. -/
theorem C2_witness :
    decode_default ⟨false, some sampleDoc⟩ = some sampleDoc ∧
    decode_default ⟨true, some sampleDoc⟩ = none ∧
    load_file ⟨true, some sampleDoc⟩ = some sampleDoc ∧
    load_file ⟨false, none⟩ = none ∧
    (processFiles mixedWorld (250, 50) (["g"] ++ "b" :: ["h"])).2.2 = Outcome.crashed := by
  refine ⟨?_, ?_, ?_, ?_, ?_⟩
  · exact (C2_theorem.1 ⟨false, some sampleDoc⟩ sampleDoc rfl rfl).1
  · exact (C2_theorem.2.1 ⟨true, some sampleDoc⟩ sampleDoc rfl rfl).1
  · exact (C2_theorem.2.1 ⟨true, some sampleDoc⟩ sampleDoc rfl rfl).2.2
  · exact (C2_theorem.2.2.1 ⟨false, none⟩ rfl).2.2
  · exact ((C2_theorem.2.2.2 mixedWorld (250, 50) "b" ["h"] rfl) ["g"]).1

/-- C3: when every discovered file loads, the orchestrator loop submits
every loaded document with the run's chunk parameters, in order, with no
call to the structural validator anywhere in the loop — the conclusion is
independent of `validate_json`, so a document lacking `data` or `meta` is
submitted rather than skipped. -/
theorem C3_theorem (a : Args) (w : World) (d : String → Json)
    (hu : a.url = none) (hp : w.probeOk = true)
    (h : ∀ f ∈ discovered_files a w, (w.fileContent f).parsed = some (d f)) :
    (main_py a w).submitted
      = (discovered_files a w).map
          (fun f => (d f, (chunk_config a.chunkobjects a.chunksinjob).1,
                     (chunk_config a.chunkobjects a.chunksinjob).2)) ∧
    (main_py a w).loaded = discovered_files a w ∧
    (main_py a w).outcome = Outcome.finished := by
  rw [main_py_none_ok a w hu hp]
  rw [processFiles_all_ok w (chunk_config a.chunkobjects a.chunksinjob) d (discovered_files a w) h]
  exact ⟨rfl, rfl, rfl⟩

/-- C3 witness: the document `{}` fails the structural check, yet the run
submits it. -/
theorem C3_witness :
    validate_json (Json.obj []) = Except.ok (false, checkMsg :: invalidMsgs) ∧
    (main_py { location := "d" } bareObjWorld).submitted = [(Json.obj [], 250, 50)] ∧
    (main_py { location := "d" } bareObjWorld).outcome = Outcome.finished := by
  have h := C3_theorem { location := "d" } bareObjWorld (fun _ => Json.obj []) rfl rfl
    (fun f _ => rfl)
  exact ⟨rfl, h.1, h.2.2⟩

/-- C4: a valid archive is fully extracted into the working directory and
discovery returns exactly its member-name list in internal order; any
location that is not a valid archive yields the non-fatal diagnostic and an
empty list without raising, and the run then completes as a no-op over zero
files. -/
theorem C4_theorem :
    (∀ (loc : String) (z : ZipFile),
       extract_zip loc (Entry.zipArchive z) = (z.members, z.members, [])) ∧
    (∀ (loc : String) (e : Entry), (∀ z, e ≠ Entry.zipArchive z) →
       extract_zip loc e = ([], [], [zipErrMsg loc])) ∧
    (∀ (a : Args) (w : World), a.url = none → w.probeOk = true →
       py_endswith a.location ".zip" = true → (∀ z, w.entity ≠ Entry.zipArchive z) →
       (main_py a w).outcome = Outcome.finished ∧ (main_py a w).submitted = [] ∧
       (main_py a w).errOutput = [zipErrMsg a.location]) := by
  have h2 : ∀ (loc : String) (e : Entry), (∀ z, e ≠ Entry.zipArchive z) →
      extract_zip loc e = ([], [], [zipErrMsg loc]) := by
    intro loc e he
    cases e with
    | zipArchive z => exact absurd rfl (he z)
    | directory t => rfl
    | invalidFile => rfl
    | missing => rfl
  refine ⟨fun loc z => rfl, h2, ?_⟩
  intro a w hu hp hz he
  rw [main_py_none_ok a w hu hp]
  have hd : discovered_files a w = [] := by
    simp [discovered_files, hz, h2 a.location w.entity he]
  have hdd : discovery_diags a w = [zipErrMsg a.location] := by
    simp [discovery_diags, hz, h2 a.location w.entity he]
  simp [hd, hdd, processFiles]

/-- C4 witness: a concrete valid archive, a missing path opened as an
archive, and a full no-op run over an invalid archive location. -/
theorem C4_witness :
    extract_zip "x.zip" (Entry.zipArchive ⟨["m"]⟩) = (["m"], ["m"], []) ∧
    extract_zip "d.zip" Entry.missing = ([], [], [zipErrMsg "d.zip"]) ∧
    (main_py { location := "d.zip" } sampleWorld).outcome = Outcome.finished ∧
    (main_py { location := "d.zip" } sampleWorld).errOutput = [zipErrMsg "d.zip"] := by
  have h3 := C4_theorem.2.2 { location := "d.zip" } sampleWorld rfl rfl rfl
    (fun z h => Entry.noConfusion h)
  exact ⟨C4_theorem.1 "x.zip" ⟨["m"]⟩,
         C4_theorem.2.1 "d.zip" Entry.missing (fun z h => Entry.noConfusion h),
         h3.1, h3.2.2⟩

/-- C5: directory discovery returns exactly the recursively collected paths
of files whose names end in `.json` (so N matching files give exactly those
N paths and none of the M others), and for an existing directory prints no
diagnostic; but for a missing directory it returns the empty sequence with
NO diagnostic — `os.walk` ignores the `scandir` error, so the
`except FileNotFoundError` handler and its message are dead code, contrary
to the claim's "emits a non-fatal diagnostic". -/
theorem C5_theorem :
    (∀ (root : String) (t : FSTree),
       (list_files_in_directory root (Entry.directory t)).1 = spec_jsonFilePaths root t) ∧
    (∀ (root : String) (t : FSTree),
       (list_files_in_directory root (Entry.directory t)).2 = []) ∧
    list_files_in_directory "/nonexistent" Entry.missing = ([], []) := by
  refine ⟨?_, fun root t => rfl, rfl⟩
  intro root t
  simpa [list_files_in_directory, os_walk] using jsonFlat_walkTree root t

/-- C6 counterexample: a supplied chunk-objects value of `-1` is not
rejected as a configuration error — the run proceeds and submits with
`-1` objects per chunk, a value that is not ≥ 1. -/
theorem C6_counterexample :
    chunk_config (-1) 50 = (-1, 50) ∧
    (main_py { location := "d", chunkobjects := -1 } jsonDirWorld).submitted
      = [(sampleDoc, -1, 50)] ∧
    (main_py { location := "d", chunkobjects := -1 } jsonDirWorld).outcome = Outcome.finished ∧
    ¬ (1 : Int) ≤ -1 :=
  ⟨rfl, rfl, rfl, by decide⟩

/-- C6 (amended): any nonzero supplied chunk value — negative values
included — is used unchanged for submission; a supplied value of 0 is
silently replaced by the default (250 or 50) rather than reported; no
chunk value is ever treated as a configuration error, so the run proceeds
and the values used for submission are not guaranteed ≥ 1. -/
theorem C6_theorem :
    (∀ co cj : Int, co ≠ 0 → (chunk_config co cj).1 = co) ∧
    (∀ co cj : Int, cj ≠ 0 → (chunk_config co cj).2 = cj) ∧
    (∀ cj : Int, (chunk_config 0 cj).1 = 250) ∧
    (∀ co : Int, (chunk_config co 0).2 = 50) ∧
    (∀ (a : Args) (w : World), a.url = none → w.probeOk = true →
       (main_py a w).chunkCfg = some (chunk_config a.chunkobjects a.chunksinjob) ∧
       ∀ code, (main_py a w).outcome ≠ Outcome.exited code) := by
  refine ⟨fun co cj h => by simp [chunk_config, h],
          fun co cj h => by simp [chunk_config, h],
          fun cj => by simp [chunk_config],
          fun co => by simp [chunk_config], ?_⟩
  intro a w hu hp
  rw [main_py_none_ok a w hu hp]
  exact ⟨rfl, fun code => processFiles_not_exited w _ _ code⟩

/-- C6 witness: `-5` is kept, `0` becomes the default, and a run proceeds
with the resolved chunk configuration. -/
theorem C6_witness :
    (chunk_config (-5) 50).1 = -5 ∧
    (chunk_config 0 7).1 = 250 ∧
    (chunk_config 3 0).2 = 50 ∧
    (main_py { location := "d" } jsonDirWorld).chunkCfg = some (250, 50) :=
  ⟨C6_theorem.1 (-5) 50 (by decide), C6_theorem.2.2.1 7, C6_theorem.2.2.2.1 3,
   (C6_theorem.2.2.2.2 { location := "d" } jsonDirWorld rfl rfl).1⟩

/-- C7 counterexample: both fatal paths — a malformed URL override and a
failed authentication probe — terminate via a bare `exit()`, i.e. with
process exit status 0, not the non-zero outcome the claim requires. -/
theorem C7_counterexample :
    (main_py { location := "d", url := some "nocolons" } sampleWorld).outcome = Outcome.exited 0 ∧
    (main_py { location := "d", url := some "nocolons" } sampleWorld).errOutput = [urlErrMsg] ∧
    (main_py { location := "d" } authFailWorld).outcome = Outcome.exited 0 ∧
    (main_py { location := "d" } authFailWorld).errOutput = [authErrMsg] :=
  ⟨rfl, rfl, rfl, rfl⟩

/-- C7 (amended): every fatal error — a supplied non-empty (truthy) URL
override that does not split on `:` into three segments, or a failed
authentication probe — prints a short diagnostic and terminates the
process immediately with nothing submitted, but via a bare `exit()`, so
the exit status is 0 rather than non-zero.  (A supplied EMPTY override is
falsy at line 115, is silently ignored, and starts no fatal path.) -/
theorem C7_theorem :
    (∀ (a : Args) (w : World) (u : String), a.url = some u → u ≠ "" →
       (py_split ':' u).length ≠ 3 →
       (main_py a w).outcome = Outcome.exited 0 ∧ (main_py a w).errOutput = [urlErrMsg] ∧
       (main_py a w).submitted = []) ∧
    (∀ (a : Args) (w : World), a.url = none → w.probeOk = false →
       (main_py a w).outcome = Outcome.exited 0 ∧ (main_py a w).errOutput = [authErrMsg] ∧
       (main_py a w).submitted = []) := by
  constructor
  · intro a w u hu hne h3
    have hr : resolve_url u = .configExit := by
      simp only [resolve_url]
      rw [if_neg h3]
    rw [main_py_configExit a w u hu hne hr]
    exact ⟨rfl, rfl, rfl⟩
  · intro a w hu hp
    rw [main_py_none_fail a w hu hp]
    exact ⟨rfl, rfl, rfl⟩

/-- C7 witness: the two fatal paths at concrete inputs. -/
theorem C7_witness :
    (main_py { location := "d", url := some "noport" } sampleWorld).outcome = Outcome.exited 0 ∧
    (main_py { location := "d", url := some "noport" } sampleWorld).errOutput = [urlErrMsg] ∧
    (main_py { location := "d" } authFailWorld).outcome = Outcome.exited 0 ∧
    (main_py { location := "d" } authFailWorld).errOutput = [authErrMsg] := by
  have h1 := C7_theorem.1 { location := "d", url := some "noport" } sampleWorld "noport" rfl
    (by decide) (by decide)
  have h2 := C7_theorem.2 { location := "d" } authFailWorld rfl rfl
  exact ⟨h1.1, h1.2.1, h2.1, h2.2.1⟩

/-- C8: a failed probe aborts the run with zero files discovered, loaded or
submitted; any run that submits anything had a succeeding probe first; and
with a succeeding probe the loaded files are an initial segment of the
discovered files with the submitted documents exactly their parse results
in the same order — submission is strictly sequential in discovery order. -/
theorem C8_theorem :
    (∀ (a : Args) (w : World), a.url = none → w.probeOk = false →
       (main_py a w).probed = true ∧ (main_py a w).outcome = Outcome.exited 0 ∧
       (main_py a w).discovered = [] ∧ (main_py a w).loaded = [] ∧
       (main_py a w).submitted = []) ∧
    (∀ (a : Args) (w : World),
       (main_py a w).submitted ≠ [] → w.probeOk = true ∧ (main_py a w).probed = true) ∧
    (∀ (a : Args) (w : World), a.url = none → w.probeOk = true →
       (∃ r, (main_py a w).loaded ++ r = discovered_files a w) ∧
       (main_py a w).submitted.map (fun s => some s.1)
         = (main_py a w).loaded.map (fun f => (w.fileContent f).parsed)) := by
  refine ⟨?_, main_py_sub_ne_probe, ?_⟩
  · intro a w hu hp
    rw [main_py_none_fail a w hu hp]
    exact ⟨rfl, rfl, rfl, rfl, rfl⟩
  · intro a w hu hp
    rw [main_py_none_ok a w hu hp]
    exact ⟨processFiles_loaded_pre w _ _, processFiles_sub_map w _ _⟩

/-- C8 witness: the probe-failure abort and the order correspondence at
concrete worlds. -/
theorem C8_witness :
    (main_py { location := "d" } authFailWorld).submitted = [] ∧
    (main_py { location := "d" } authFailWorld).outcome = Outcome.exited 0 ∧
    jsonDirWorld.probeOk = true ∧
    (main_py { location := "d" } jsonDirWorld).probed = true ∧
    (main_py { location := "d" } jsonDirWorld).submitted.map (fun s => some s.1)
      = (main_py { location := "d" } jsonDirWorld).loaded.map
          (fun f => (jsonDirWorld.fileContent f).parsed) := by
  have h1 := C8_theorem.1 { location := "d" } authFailWorld rfl rfl
  have h2 := C8_theorem.2.1 { location := "d" } jsonDirWorld
    (fun h => List.cons_ne_nil _ _ h)
  have h3 := C8_theorem.2.2 { location := "d" } jsonDirWorld rfl rfl
  exact ⟨h1.2.2.2.2, h1.2.1, h2.1, h2.2, h3.2⟩

/-- C9 counterexample: the JSON array `["data", "meta"]` exposes no
top-level members at all, yet validation returns true — Python `in` on a
list is element membership, so `all(key in json_data ...)` holds. -/
theorem C9_counterexample :
    validate_json (Json.arr [Json.str "data", Json.str "meta"]) = Except.ok (true, [checkMsg]) ∧
    spec_exposes_data_meta (Json.arr [Json.str "data", Json.str "meta"]) = false :=
  ⟨rfl, rfl⟩

/-- C9 (amended): for a JSON-object document, validation returns true iff
the document has both top-level members `data` and `meta`, and when it
returns false it prints the diagnostic lines and returns rather than
raising.  (For non-object documents the membership probe follows Python
semantics: element test on arrays, substring test on strings, `TypeError`
on scalars.) -/
theorem C9_theorem (kvs : List (String × Json)) :
    (validate_json (Json.obj kvs) = Except.ok (true, [checkMsg]) ↔
       spec_exposes_data_meta (Json.obj kvs) = true) ∧
    (spec_exposes_data_meta (Json.obj kvs) = false →
       validate_json (Json.obj kvs) = Except.ok (false, checkMsg :: invalidMsgs)) := by
  cases hd : kvs.any (fun kv => kv.1 == "data") <;>
    cases hm : kvs.any (fun kv => kv.1 == "meta") <;>
      simp [validate_json, py_contains, spec_exposes_data_meta, hd, hm]

/-- C9 witness: both branches of `C9_theorem` at concrete objects. -/
theorem C9_witness :
    validate_json (Json.obj [("data", Json.null), ("meta", Json.null)])
      = Except.ok (true, [checkMsg]) ∧
    validate_json (Json.obj [("x", Json.null)])
      = Except.ok (false, checkMsg :: invalidMsgs) :=
  ⟨(C9_theorem [("data", Json.null), ("meta", Json.null)]).1.mpr rfl,
   (C9_theorem [("x", Json.null)]).2 rfl⟩

/-- C10: discovery dispatches solely on the case-sensitive suffix `.zip` of
the location string — a `.zip`-suffixed location is always opened as an
archive (a directory so named yields the archive-error path and no files),
and any other location is always walked as a directory (a genuine zip
archive without the suffix yields zero files). -/
theorem C10_theorem :
    (∀ (a : Args) (w : World), py_endswith a.location ".zip" = true →
       discovered_files a w = (extract_zip a.location w.entity).1) ∧
    (∀ (a : Args) (w : World), py_endswith a.location ".zip" = false →
       discovered_files a w = (list_files_in_directory a.location w.entity).1) ∧
    (∀ t : FSTree, discovered_files { location := "dir.zip" }
        { sampleWorld with entity := Entry.directory t } = []) ∧
    (∀ z : ZipFile, discovered_files { location := "archive.dat" }
        { sampleWorld with entity := Entry.zipArchive z } = []) :=
  ⟨fun a w h => by simp [discovered_files, h],
   fun a w h => by simp [discovered_files, h],
   fun t => rfl, fun z => rfl⟩

/-- C10 witness: the dispatch at concrete locations, including a directory
named `dir.zip` and a valid archive named `archive.dat`. -/
theorem C10_witness :
    discovered_files { location := "d.zip" } sampleWorld
      = (extract_zip "d.zip" sampleWorld.entity).1 ∧
    discovered_files { location := "d" } sampleWorld
      = (list_files_in_directory "d" sampleWorld.entity).1 ∧
    discovered_files { location := "dir.zip" }
      { sampleWorld with entity := Entry.directory (FSTree.node ["a.json"] DirList.nil) } = [] ∧
    discovered_files { location := "archive.dat" }
      { sampleWorld with entity := Entry.zipArchive ⟨["m"]⟩ } = [] :=
  ⟨C10_theorem.1 { location := "d.zip" } sampleWorld rfl,
   C10_theorem.2.1 { location := "d" } sampleWorld rfl,
   C10_theorem.2.2.1 (FSTree.node ["a.json"] DirList.nil),
   C10_theorem.2.2.2 ⟨["m"]⟩⟩
